import Mathlib

/-!
Shallow embedding of the chain-service normalization layer
(src/background/services/chain/utils.ts): conversion of polling-provider
and subscription-provider block and transaction payloads into canonical
entities, the reverse broadcast direction, and the network adapter.

Numbers are modelled as Nat (the payloads carry only unsigned values);
JavaScript exceptions are modelled with Except JsError; absent values
(undefined) are modelled with Option, and fields whose declared type
distinguishes undefined from null use JsOpt.
-/

deriving instance DecidableEq for Except

set_option maxRecDepth 4000

/-! ## JavaScript and ethers numeric semantics -/

/-- The largest integer a JavaScript double represents safely, 2^53 - 1. -/
def maxSafeInteger : Nat := 2 ^ 53 - 1

def natLog2Aux : Nat → Nat → Nat
  | 0, _ => 0
  | fuel + 1, n => if 2 ≤ n then natLog2Aux fuel (n / 2) + 1 else 0

/-- Base-2 logarithm (floor), written with structural fuel recursion so
that the kernel can evaluate it; the fuel n always suffices since the
argument halves at every step. -/
def natLog2 (n : Nat) : Nat := natLog2Aux n n

/-- Rounding of an integer to the nearest IEEE-754 double (ties to even),
as ECMAScript number conversion performs on integer values: exact below
2^53, otherwise the trailing bits beyond the 53-bit significand are
rounded away. Every value arising here is far below the double overflow
threshold of 2^1024, so no infinity case is needed. -/
def roundToDouble (n : Nat) : Nat :=
  if n < 2 ^ 53 then n
  else
    let e := natLog2 n + 1 - 53
    let q := n / 2 ^ e
    let r := n % 2 ^ e
    let half := 2 ^ (e - 1)
    if r < half then q * 2 ^ e
    else if half < r then (q + 1) * 2 ^ e
    else if q % 2 = 0 then q * 2 ^ e else (q + 1) * 2 ^ e

/-- The value of a hexadecimal digit character, none for any other
character. -/
def hexDigitVal (c : Char) : Option Nat :=
  if '0' ≤ c ∧ c ≤ '9' then some (c.toNat - '0'.toNat)
  else if 'a' ≤ c ∧ c ≤ 'f' then some (c.toNat - 'a'.toNat + 10)
  else if 'A' ≤ c ∧ c ≤ 'F' then some (c.toNat - 'A'.toNat + 10)
  else none

/-- Whether a character is a decimal digit. -/
def isDecDigit (c : Char) : Bool := decide ('0' ≤ c ∧ c ≤ '9')

/-- Big-endian value of a run of hexadecimal digit characters. -/
def hexDigitsVal (cs : List Char) : Nat :=
  cs.foldl (fun acc c => acc * 16 + (hexDigitVal c).getD 0) 0

/-- Big-endian value of a run of decimal digit characters. -/
def decDigitsVal (cs : List Char) : Nat :=
  cs.foldl (fun acc c => acc * 10 + (c.toNat - '0'.toNat)) 0

/-- ECMAScript parseInt with radix 16 as exercised here (on slices of
hexadecimal call-data strings, so sign and whitespace handling never
arise): an optional 0x or 0X marker is skipped, the longest leading run of
hexadecimal digits is read, an empty run yields NaN (none), and the
integer value is rounded to the nearest double. -/
def jsParseIntHex (str : String) : Option Nat :=
  let cs := str.data
  let body := if cs.take 2 = ['0', 'x'] ∨ cs.take 2 = ['0', 'X'] then cs.drop 2 else cs
  let digits := body.takeWhile fun c => (hexDigitVal c).isSome
  if digits.isEmpty then none else some (roundToDouble (hexDigitsVal digits))

/-- ECMAScript parseInt with radix 10 as exercised here (on decimal
number-to-string output and registry chain-ID strings): the longest
leading run of decimal digits is read, an empty run yields NaN (none), and
the value is rounded to the nearest double. -/
def jsParseIntDec (str : String) : Option Nat :=
  let digits := str.data.takeWhile isDecDigit
  if digits.isEmpty then none else some (roundToDouble (decDigitsVal digits))

/-- ECMAScript Number(string) restricted to the string shapes seen here:
the empty string converts to 0, a 0x-prefixed nonempty hexadecimal-digit
string or an all-decimal-digit string converts to its value rounded to the
nearest double, and anything else is NaN (none). -/
def jsNumberOfString (str : String) : Option Nat :=
  let cs := str.data
  if cs.isEmpty then some 0
  else if cs.take 2 = ['0', 'x'] ∨ cs.take 2 = ['0', 'X'] then
    let ds := cs.drop 2
    if ¬ds.isEmpty ∧ ds.all fun c => (hexDigitVal c).isSome then
      some (roundToDouble (hexDigitsVal ds))
    else none
  else if cs.all isDecDigit then some (roundToDouble (decDigitsVal cs))
  else none

/-- Number(x) for a possibly-absent string: Number(undefined) is NaN
(modelled as none), raising no exception. -/
def jsNumberOfOptString (s : Option String) : Option Nat :=
  match s with
  | some str => jsNumberOfString str
  | none => none

/-- The decimal-digit character for a digit value. -/
def decDigitChar (d : Nat) : Char := Char.ofNat ('0'.toNat + d)

/-- The decimal digit characters of a natural number, most significant
first (specification version, by well-founded recursion). -/
def decDigitsRec (n : Nat) : List Char :=
  if n < 10 then [decDigitChar n]
  else decDigitsRec (n / 10) ++ [decDigitChar (n % 10)]
decreasing_by exact Nat.div_lt_self (by omega) (by omega)

def natToDecCharsCore : Nat → Nat → List Char → List Char
  | 0, _, acc => acc
  | fuel + 1, n, acc =>
    if n < 10 then decDigitChar n :: acc
    else natToDecCharsCore fuel (n / 10) (decDigitChar (n % 10) :: acc)

/-- The decimal digit characters of a natural number, most significant
first, written with structural fuel recursion so that the kernel can
evaluate it; models ECMAScript number-to-string on the integral values in
range here, which prints the exact decimal digits. -/
def natToDecChars (n : Nat) : List Char := natToDecCharsCore (n + 1) n []

/-- ECMAScript number-to-string for the integral values in range here. -/
def jsNumberToString (n : Nat) : String := ⟨natToDecChars n⟩

/-- The composite parseInt(n.toString(), 10) applied to a JavaScript
number holding the integral value n. -/
def jsParseIntOfNumberString (n : Nat) : Nat :=
  (jsParseIntDec (jsNumberToString n)).getD 0

/-- The errors this layer can raise: the two explicit throws of
txFromEthersTx, and the exceptions of the JavaScript and ethers primitives
it calls (BigInt of undefined or null is a TypeError, BigInt of a
malformed string is a SyntaxError, BigInt of NaN is a RangeError, ethers
BigNumber.from rejects malformed values, and ethers BigNumber.toNumber
faults on values beyond the safe-integer range). -/
inductive JsError where
  | malformedTransaction : JsError
  | unknownTransactionType : Option Nat → JsError
  | typeError : JsError
  | syntaxError : JsError
  | rangeError : JsError
  | invalidBigNumber : JsError
  | overflow : JsError
deriving Repr, DecidableEq

/-- JavaScript BigInt(string): the empty string is 0, a 0x-prefixed
nonempty hexadecimal-digit string or an all-decimal-digit string parses
exactly (BigInt is arbitrary precision), and any other string throws a
SyntaxError. -/
def jsBigIntOfString (str : String) : Except JsError Nat :=
  let cs := str.data
  if cs.isEmpty then .ok 0
  else if cs.take 2 = ['0', 'x'] ∨ cs.take 2 = ['0', 'X'] then
    let ds := cs.drop 2
    if ¬ds.isEmpty ∧ ds.all fun c => (hexDigitVal c).isSome then .ok (hexDigitsVal ds)
    else .error .syntaxError
  else if cs.all isDecDigit then .ok (decDigitsVal cs)
  else .error .syntaxError

/-- JavaScript BigInt applied to a possibly-absent string: BigInt of
undefined (or null) throws a TypeError. -/
def jsBigIntOfOptString (s : Option String) : Except JsError Nat :=
  match s with
  | none => .error .typeError
  | some str => jsBigIntOfString str

/-- Ethers BigNumber.from on a possibly-absent string: absent (undefined
or null) values throw, strings that are neither 0x-prefixed hexadecimal
nor all decimal digits throw, and otherwise the exact integer value is
produced (BigNumber is arbitrary precision). -/
def bigNumberFromOptString (s : Option String) : Except JsError Nat :=
  match s with
  | none => .error .typeError
  | some str =>
    let cs := str.data
    if cs.take 2 = ['0', 'x'] ∨ cs.take 2 = ['0', 'X'] then
      let ds := cs.drop 2
      if ¬ds.isEmpty ∧ ds.all fun c => (hexDigitVal c).isSome then .ok (hexDigitsVal ds)
      else .error .invalidBigNumber
    else if ¬cs.isEmpty ∧ cs.all isDecDigit then .ok (decDigitsVal cs)
    else .error .invalidBigNumber

/-- Ethers BigNumber.toNumber: an overflow fault when the value exceeds
2^53 - 1 (the underlying big-number library refuses to convert values of
more than 53 bits), otherwise the exact value. -/
def bigNumberToNumber (n : Nat) : Except JsError Nat :=
  if n ≤ maxSafeInteger then .ok n else .error .overflow

/-- A JavaScript value that may be undefined, null, or present; used for
the payload fields whose declared type distinguishes the three. -/
inductive JsOpt (α : Type) where
  | undef : JsOpt α
  | null : JsOpt α
  | val : α → JsOpt α
deriving Repr, DecidableEq

/-- JavaScript truthiness of a possibly-absent string: absent and the
empty string are falsy. -/
def truthyOptStr (s : Option String) : Bool :=
  match s with
  | some str => str != ""
  | none => false

/-- JavaScript truthiness of a possibly-absent number: absent and 0 are
falsy. -/
def truthyOptNat (n : Option Nat) : Bool :=
  match n with
  | some m => m != 0
  | none => false

/-- JavaScript truthiness of an undefined-or-null-or-string value. -/
def jsOptTruthyStr (s : JsOpt String) : Bool :=
  match s with
  | .val str => str != ""
  | _ => false

/-- The pattern x || null (also x || undefined) on a possibly-absent
string: falsy values (absent or empty) become absent. -/
def jsOrNullStr (s : Option String) : Option String :=
  match s with
  | some str => if str = "" then none else some str
  | none => none

/-- The pattern x || null on a possibly-absent number: falsy values
(absent or 0) become absent. -/
def jsOrNullNat (n : Option Nat) : Option Nat :=
  match n with
  | some m => if m = 0 then none else some m
  | none => none

/-- The pattern x ?? null on an undefined-or-null-or-string value: only
absence is coalesced, the empty string stays. -/
def jsOptCoalesceStr (s : JsOpt String) : Option String :=
  match s with
  | .val str => some str
  | _ => none

/-- The pattern x ?? null on an undefined-or-null-or-number value. -/
def jsOptCoalesceNat (n : JsOpt Nat) : Option Nat :=
  match n with
  | .val m => some m
  | _ => none

/-- The pattern x ? BigInt(x) : undefined for a possibly-absent string
field. -/
def truthyBigIntOpt (s : Option String) : Except JsError (Option Nat) :=
  match s with
  | some str => if str = "" then .ok none else (jsBigIntOfString str).map some
  | none => .ok none

/-- The pattern x ? BigInt(x) : null for an undefined-or-null-or-string
field. -/
def truthyBigIntJsOpt (s : JsOpt String) : Except JsError (Option Nat) :=
  match s with
  | .val str => if str = "" then .ok none else (jsBigIntOfString str).map some
  | _ => .ok none

/-- The pattern x ? BigNumber.from(x) : undefined on a possibly-absent
bigint field (of ethersTxFromSignedTx): the bigint 0 is falsy, so a zero
fee field is dropped; a present nonzero value converts exactly. -/
def truthyBigNumberOpt (n : Option Nat) : Option Nat :=
  match n with
  | some m => if m = 0 then none else some m
  | none => none

/-- JavaScript String.prototype.slice(-k): the last k characters, or the
whole string when it is shorter. -/
def sliceLast (k : Nat) (str : String) : String :=
  ⟨str.data.drop (str.data.length - k)⟩

/-! ## Data model -/

/-- Canonical network descriptor supplied by the external registry. -/
structure EVMNetwork where
  name : String
  chainID : String
deriving Repr, DecidableEq

/-- Fungible-asset descriptor supplied by the external registry; only the
symbol takes part in the conversions. -/
structure FungibleAsset where
  symbol : String
  decimals : Nat
deriving Repr, DecidableEq

/-- Modelled from the spec: the fixed canonical network constant of this
single-chain integration (the Ethereum mainnet, decimal chain ID 1, whose
native asset is ETH); the constant itself lives outside this module, in
the constants module the conversions import. -/
def ETHEREUM : EVMNetwork := { name := "Ethereum", chainID := "1" }

/-- Canonical block entity. The hash and parentHash fields record the
runtime value: the subscription conversion never checks them, so an
absent payload field flows through as an absent field here. -/
structure AnyEVMBlock where
  hash : Option String
  blockHeight : Nat
  parentHash : Option String
  difficulty : Nat
  timestamp : Nat
  baseFeePerGas : Option Nat
  network : EVMNetwork
deriving Repr, DecidableEq

/-- A subscription-provider block payload: the code casts an untyped value
to this shape, so every field may be absent at runtime. -/
structure WebsocketBlockPayload where
  hash : Option String
  number : Option String
  parentHash : Option String
  difficulty : Option String
  timestamp : Option String
  baseFeePerGas : Option String
deriving Repr, DecidableEq

/-- Parse a block as returned by a websocket provider subscription,
evaluating the fields in the order of the object literal in the source:
blockHeight is BigNumber.from(number).toNumber(), difficulty is
BigInt(difficulty), timestamp is BigNumber.from(timestamp).toNumber(),
baseFeePerGas is baseFeePerGas ? BigInt(baseFeePerGas) : undefined, and
hash and parentHash are copied with no check. -/
def blockFromWebsocketBlock (gethResult : WebsocketBlockPayload) :
    Except JsError AnyEVMBlock :=
  match bigNumberFromOptString gethResult.number with
  | .error e => .error e
  | .ok numberBN =>
    match bigNumberToNumber numberBN with
    | .error e => .error e
    | .ok blockHeight =>
      match jsBigIntOfOptString gethResult.difficulty with
      | .error e => .error e
      | .ok difficulty =>
        match bigNumberFromOptString gethResult.timestamp with
        | .error e => .error e
        | .ok timestampBN =>
          match bigNumberToNumber timestampBN with
          | .error e => .error e
          | .ok timestamp =>
            match truthyBigIntOpt gethResult.baseFeePerGas with
            | .error e => .error e
            | .ok baseFeePerGas =>
              .ok { hash := gethResult.hash
                    blockHeight := blockHeight
                    parentHash := gethResult.parentHash
                    difficulty := difficulty
                    timestamp := timestamp
                    baseFeePerGas := baseFeePerGas
                    network := ETHEREUM }

/-! ## Transactions -/

/-- A transaction as handed over by the polling provider (the ethers
Transaction shape, extended with from, blockHash, blockNumber and type as
in the source signature). The object fields model the runtime values:
hash, type, the fee fields, the signature fields and the block fields may
all be absent; big-number fields hold exact integers. -/
structure EthersTx where
  hash : Option String
  to_ : Option String
  from_ : String
  nonce : Nat
  gasLimit : Nat
  gasPrice : Option Nat
  maxFeePerGas : Option Nat
  maxPriorityFeePerGas : Option Nat
  data : String
  value : Nat
  type : Option Nat
  r : Option String
  s : Option String
  v : Option Nat
  blockHash : Option String
  blockNumber : Option Nat
deriving Repr, DecidableEq

/-- The canonical transaction fields shared by the unsigned and signed
variants. -/
structure EVMTransaction where
  hash : String
  from_ : String
  to_ : Option String
  nonce : Nat
  gasLimit : Nat
  gasPrice : Option Nat
  maxFeePerGas : Option Nat
  maxPriorityFeePerGas : Option Nat
  value : Nat
  input : String
  type : Nat
  blockHash : Option String
  blockHeight : Option Nat
  network : EVMNetwork
  asset : FungibleAsset
deriving Repr, DecidableEq

/-- The result of the polled-transaction conversion: the unsigned shape,
or the signed shape carrying r, s and v. -/
inductive AnyEVMTransaction where
  | unsigned : EVMTransaction → AnyEVMTransaction
  | signed : EVMTransaction → String → String → Nat → AnyEVMTransaction
deriving Repr, DecidableEq

/-- The canonical fields of either variant. -/
def AnyEVMTransaction.base : AnyEVMTransaction → EVMTransaction
  | .unsigned tx => tx
  | .signed tx _ _ _ => tx

/-- Whether the signed variant was produced. -/
def AnyEVMTransaction.isSigned : AnyEVMTransaction → Bool
  | .unsigned _ => false
  | .signed _ _ _ _ => true

/-- The value computation of txFromEthersTx: the literal value field
(converted exactly from the provider big number) and, when the asset
symbol is not ETH, the override BigInt(parseInt(tx.data.slice(-64), 16)),
where BigInt of NaN throws a RangeError. -/
def derivedValue (tx : EthersTx) (asset : FungibleAsset) : Except JsError Nat :=
  if asset.symbol ≠ "ETH" then
    match jsParseIntHex (sliceLast 64 tx.data) with
    | none => .error .rangeError
    | some n => .ok n
  else .ok tx.value

/-- The newTx object literal of txFromEthersTx: nonce is
parseInt(tx.nonce.toString(), 10); gasLimit and the fee fields convert
exactly from big numbers (a present BigNumber is truthy even at zero, so
the fee fields pass through); blockHash and blockNumber use the pattern
x || null. -/
def mkNewTx (tx : EthersTx) (asset : FungibleAsset) (network : EVMNetwork)
    (hash : String) (t : Nat) (value : Nat) : EVMTransaction :=
  { hash := hash
    from_ := tx.from_
    to_ := tx.to_
    nonce := jsParseIntOfNumberString tx.nonce
    gasLimit := tx.gasLimit
    gasPrice := tx.gasPrice
    maxFeePerGas := tx.maxFeePerGas
    maxPriorityFeePerGas := tx.maxPriorityFeePerGas
    value := value
    input := tx.data
    type := t
    blockHash := jsOrNullStr tx.blockHash
    blockHeight := jsOrNullNat tx.blockNumber
    network := network
    asset := asset }

/-- The final branch of txFromEthersTx: the signed variant, with r, s and
v attached verbatim, when all three are present and truthy, otherwise the
unsigned variant. -/
def attachSignature (newTx : EVMTransaction) (r s : Option String) (v : Option Nat) :
    AnyEVMTransaction :=
  match r, s, v with
  | some rv, some sv, some vv =>
    if rv ≠ "" ∧ sv ≠ "" ∧ vv ≠ 0 then .signed newTx rv sv vv
    else .unsigned newTx
  | _, _, _ => .unsigned newTx

/-- Parse a transaction as returned by a polling provider: a missing hash
throws the malformed-transaction error; a type outside literal 0, 1, 2
(including an absent type) throws the unknown-transaction-type error; the
value is computed by derivedValue; the canonical fields are assembled by
mkNewTx; and the variant is chosen by attachSignature. -/
def txFromEthersTx (tx : EthersTx) (asset : FungibleAsset) (network : EVMNetwork) :
    Except JsError AnyEVMTransaction :=
  match tx.hash with
  | none => .error .malformedTransaction
  | some hash =>
    match tx.type with
    | none => .error (.unknownTransactionType none)
    | some t =>
      if t = 0 ∨ t = 1 ∨ t = 2 then
        match derivedValue tx asset with
        | .error e => .error e
        | .ok value =>
          .ok (attachSignature (mkNewTx tx asset network hash t value) tx.r tx.s tx.v)
      else .error (.unknownTransactionType (some t))

/-- The canonical signed transaction: the canonical fields plus the three
signature components. -/
structure SignedEVMTransaction extends EVMTransaction where
  r : String
  s : String
  v : Nat
deriving Repr, DecidableEq

/-- The shape ethersTxFromSignedTx hands to the provider for broadcast:
note it carries no hash, no type, no gasPrice and no block fields. The
chainId is parseInt(network.chainID, 10), whose NaN case is modelled as
none. -/
structure EthersTxForBroadcast where
  nonce : Nat
  maxFeePerGas : Option Nat
  maxPriorityFeePerGas : Option Nat
  to_ : Option String
  from_ : String
  data : String
  chainId : Option Nat
  value : Nat
  gasLimit : Nat
  r : String
  s : String
  v : Nat
deriving Repr, DecidableEq

/-- Convert a canonical signed transaction to the provider shape for
broadcast: nonce is Number(tx.nonce) (the identity on a number); the two
fee-per-gas fields use the truthiness pattern x ? BigNumber.from(x) :
undefined (so a zero fee is dropped); data is tx.input || ""; value and
gasLimit convert exactly; r, s and v are copied verbatim. -/
def ethersTxFromSignedTx (tx : SignedEVMTransaction) : EthersTxForBroadcast :=
  { nonce := tx.nonce
    maxFeePerGas := truthyBigNumberOpt tx.maxFeePerGas
    maxPriorityFeePerGas := truthyBigNumberOpt tx.maxPriorityFeePerGas
    to_ := tx.to_
    from_ := tx.from_
    data := if tx.input = "" then "" else tx.input
    chainId := jsParseIntDec tx.network.chainID
    value := tx.value
    gasLimit := tx.gasLimit
    r := tx.r
    s := tx.s
    v := tx.v }

/-- Rebuild a polled-provider transaction from a broadcast-shaped one, for
the round-trip property. The broadcast shape carries no hash, type,
gasPrice, blockHash or blockNumber, so the re-parse is only feasible once
a hash and a type are supplied (as the provider would attach them); the
remaining absent fields stay absent. -/
def repolledTx (out : EthersTxForBroadcast) (hash : String) (t : Nat) : EthersTx :=
  { hash := some hash
    to_ := out.to_
    from_ := out.from_
    nonce := out.nonce
    gasLimit := out.gasLimit
    gasPrice := none
    maxFeePerGas := out.maxFeePerGas
    maxPriorityFeePerGas := out.maxPriorityFeePerGas
    data := out.data
    value := out.value
    type := some t
    r := some out.r
    s := some out.s
    v := some out.v
    blockHash := none
    blockNumber := none }

/-- A subscription-provider transaction payload: the code casts an
untyped value, so the fields declared plain string may still be absent at
runtime (Option, none for undefined or null, which the conversions treat
alike), while the fields declared with undefined and null use JsOpt. -/
structure WebsocketTxPayload where
  hash : Option String
  to_ : Option String
  from_ : Option String
  gas : Option String
  gasPrice : Option String
  maxFeePerGas : JsOpt String
  maxPriorityFeePerGas : JsOpt String
  input : Option String
  r : Option String
  s : Option String
  v : Option String
  nonce : Option String
  value : Option String
  blockHash : JsOpt String
  blockNumber : JsOpt Nat
  type : JsOpt String
deriving Repr, DecidableEq

/-- The transaction the websocket conversion returns: always the unsigned
shape, with r and s optional, v numeric, and nonce holding NaN (none)
when the payload nonce is absent or malformed, since Number(undefined) is
NaN rather than an exception. -/
structure WebsocketEVMTransaction where
  hash : Option String
  to_ : Option String
  from_ : Option String
  gasLimit : Nat
  gasPrice : Nat
  maxFeePerGas : Option Nat
  maxPriorityFeePerGas : Option Nat
  input : Option String
  r : Option String
  s : Option String
  v : Nat
  nonce : Option Nat
  value : Nat
  blockHash : Option String
  blockHeight : Option Nat
  type : Nat
  asset : FungibleAsset
  network : EVMNetwork
deriving Repr, DecidableEq

/-- The type computation of txFromWebsocketTx: tx.type !== undefined ?
BigNumber.from(tx.type).toNumber() : 0 — note a null type passes the
undefined test and BigNumber.from(null) throws. -/
def wsType (t : JsOpt String) : Except JsError Nat :=
  match t with
  | .undef => .ok 0
  | .null => .error .typeError
  | .val str =>
    match bigNumberFromOptString (some str) with
    | .error e => .error e
    | .ok bn => bigNumberToNumber bn

/-- Parse a transaction as returned by a websocket provider subscription,
evaluating the throwing conversions in the order of the object literal in
the source: gasLimit is BigInt(gas), gasPrice is BigInt(gasPrice) (both
unguarded, so absence throws), the two fee-per-gas fields use the pattern
x ? BigInt(x) : null, r and s use x || undefined, v is
BigNumber.from(v).toNumber() (unguarded), nonce is Number(nonce), value
is BigInt(value) (unguarded), blockHash is blockHash ?? null, blockHeight
is blockNumber ?? null, and type defaults to 0 only when undefined. -/
def txFromWebsocketTx (tx : WebsocketTxPayload) (asset : FungibleAsset)
    (network : EVMNetwork) : Except JsError WebsocketEVMTransaction :=
  match jsBigIntOfOptString tx.gas with
  | .error e => .error e
  | .ok gasLimit =>
    match jsBigIntOfOptString tx.gasPrice with
    | .error e => .error e
    | .ok gasPrice =>
      match truthyBigIntJsOpt tx.maxFeePerGas with
      | .error e => .error e
      | .ok maxFeePerGas =>
        match truthyBigIntJsOpt tx.maxPriorityFeePerGas with
        | .error e => .error e
        | .ok maxPriorityFeePerGas =>
          match bigNumberFromOptString tx.v with
          | .error e => .error e
          | .ok vBN =>
            match bigNumberToNumber vBN with
            | .error e => .error e
            | .ok v =>
              match jsBigIntOfOptString tx.value with
              | .error e => .error e
              | .ok value =>
                match wsType tx.type with
                | .error e => .error e
                | .ok t =>
                  .ok { hash := tx.hash
                        to_ := tx.to_
                        from_ := tx.from_
                        gasLimit := gasLimit
                        gasPrice := gasPrice
                        maxFeePerGas := maxFeePerGas
                        maxPriorityFeePerGas := maxPriorityFeePerGas
                        input := tx.input
                        r := jsOrNullStr tx.r
                        s := jsOrNullStr tx.s
                        v := v
                        nonce := jsNumberOfOptString tx.nonce
                        value := value
                        blockHash := jsOptCoalesceStr tx.blockHash
                        blockHeight := jsOptCoalesceNat tx.blockNumber
                        type := t
                        asset := asset
                        network := network }

/-! ## Network adapter -/

/-- The ethers network descriptor; chainId is Number(chainID), whose NaN
case is modelled as none. -/
structure EthersNetwork where
  name : String
  chainId : Option Nat
deriving Repr, DecidableEq

/-- Convert the canonical network type to the ethers network type: the
name Ethereum maps to the ethers-internal mainnet alias homestead, any
other name is lower-cased (String.toLower models toLowerCase on the ASCII
names in use), and chainId is Number(network.chainID). -/
def networkToEthersNetwork (network : EVMNetwork) : EthersNetwork :=
  let networkName :=
    if network.name = "Ethereum" then "homestead" else network.name.toLower
  { name := networkName
    chainId := jsNumberOfString network.chainID }

/-! ## Support lemmas on the numeric primitives -/

theorem roundToDouble_of_lt {n : Nat} (h : n < 2 ^ 53) : roundToDouble n = n := by
  rw [roundToDouble, if_pos h]

theorem decDigitChar_toNat {d : Nat} (h : d < 10) : (decDigitChar d).toNat = 48 + d := by
  interval_cases d <;> decide

theorem isDecDigit_decDigitChar {d : Nat} (h : d < 10) :
    isDecDigit (decDigitChar d) = true := by
  interval_cases d <;> decide

theorem decDigitsRec_ne_nil (n : Nat) : decDigitsRec n ≠ [] := by
  rw [decDigitsRec]
  split
  · simp
  · simp

theorem decDigitsRec_all_digits (n : Nat) :
    ∀ c ∈ decDigitsRec n, isDecDigit c = true := by
  induction n using decDigitsRec.induct with
  | case1 n h =>
    rw [decDigitsRec]
    simp only [if_pos h, List.mem_singleton]
    intro c hc
    subst hc
    exact isDecDigit_decDigitChar h
  | case2 n h ih =>
    rw [decDigitsRec]
    simp only [if_neg h, List.mem_append, List.mem_singleton]
    intro c hc
    rcases hc with hc | hc
    · exact ih c hc
    · subst hc
      exact isDecDigit_decDigitChar (Nat.mod_lt _ (by omega))

theorem decDigitsVal_append_singleton (xs : List Char) (c : Char) :
    decDigitsVal (xs ++ [c]) = 10 * decDigitsVal xs + (c.toNat - '0'.toNat) := by
  simp [decDigitsVal, List.foldl_append, Nat.mul_comm]

theorem decDigitsVal_decDigitsRec (n : Nat) :
    decDigitsVal (decDigitsRec n) = n := by
  induction n using decDigitsRec.induct with
  | case1 n h =>
    rw [decDigitsRec]
    simp only [if_pos h]
    have := decDigitChar_toNat h
    simp [decDigitsVal, this]
  | case2 n h ih =>
    rw [decDigitsRec]
    simp only [if_neg h]
    rw [decDigitsVal_append_singleton, ih, decDigitChar_toNat (Nat.mod_lt _ (by omega))]
    show 10 * (n / 10) + (48 + n % 10 - 48) = n
    omega

theorem natToDecCharsCore_eq :
    ∀ fuel n acc, 0 < fuel → n < 10 ^ fuel →
      natToDecCharsCore fuel n acc = decDigitsRec n ++ acc := by
  intro fuel
  induction fuel with
  | zero => intro n acc hpos h; exact absurd hpos (by omega)
  | succ fuel ih =>
    intro n acc hpos h
    rw [natToDecCharsCore]
    by_cases h10 : n < 10
    · rw [if_pos h10, decDigitsRec, if_pos h10]
      rfl
    · rw [if_neg h10]
      have hfuel : 0 < fuel := by
        rcases Nat.eq_zero_or_pos fuel with hf | hf
        · subst hf
          norm_num at h
          omega
        · exact hf
      have hdiv : n / 10 < 10 ^ fuel := by
        rw [Nat.div_lt_iff_lt_mul (by omega)]
        calc n < 10 ^ (fuel + 1) := h
        _ = 10 ^ fuel * 10 := by ring
      rw [ih (n / 10) _ hfuel hdiv]
      conv_rhs => rw [decDigitsRec]
      rw [if_neg h10]
      simp

theorem natToDecChars_eq_decDigitsRec (n : Nat) : natToDecChars n = decDigitsRec n := by
  rw [natToDecChars, natToDecCharsCore_eq (n + 1) n [] (by omega)
    (lt_of_lt_of_le (Nat.lt_pow_self (by omega) n) (Nat.pow_le_pow_right (by omega) (by omega)))]
  simp

theorem natToDecChars_ne_nil (n : Nat) : natToDecChars n ≠ [] := by
  rw [natToDecChars_eq_decDigitsRec]
  exact decDigitsRec_ne_nil n

theorem natToDecChars_all_digits (n : Nat) :
    ∀ c ∈ natToDecChars n, isDecDigit c = true := by
  rw [natToDecChars_eq_decDigitsRec]
  exact decDigitsRec_all_digits n

theorem decDigitsVal_natToDecChars (n : Nat) :
    decDigitsVal (natToDecChars n) = n := by
  rw [natToDecChars_eq_decDigitsRec]
  exact decDigitsVal_decDigitsRec n

theorem jsParseIntDec_numberString (n : Nat) :
    jsParseIntDec (jsNumberToString n) = some (roundToDouble n) := by
  rw [jsParseIntDec, jsNumberToString]
  have hall : (natToDecChars n).takeWhile isDecDigit = natToDecChars n :=
    List.takeWhile_eq_self_iff.mpr (natToDecChars_all_digits n)
  simp only [hall]
  rw [if_neg (by simpa [List.isEmpty_iff] using natToDecChars_ne_nil n)]
  rw [decDigitsVal_natToDecChars]

theorem jsParseIntOfNumberString_eq {n : Nat} (h : n < 2 ^ 53) :
    jsParseIntOfNumberString n = n := by
  rw [jsParseIntOfNumberString, jsParseIntDec_numberString, roundToDouble_of_lt h]
  rfl

theorem jsNumberOfString_numberString (n : Nat) :
    jsNumberOfString (jsNumberToString n) = some (roundToDouble n) := by
  have hne := natToDecChars_ne_nil n
  have hall := natToDecChars_all_digits n
  have h1 : (natToDecChars n).isEmpty = false := by
    cases h : natToDecChars n with
    | nil => exact absurd h hne
    | cons a l => rfl
  have hx : ¬((natToDecChars n).take 2 = ['0', 'x'] ∨ (natToDecChars n).take 2 = ['0', 'X']) := by
    have hmem : ∀ c ∈ (natToDecChars n).take 2, isDecDigit c = true := fun c hc =>
      hall c (List.mem_of_mem_take hc)
    intro hc
    rcases hc with hc | hc <;> rw [hc] at hmem
    · exact absurd (hmem 'x' (by simp)) (by decide)
    · exact absurd (hmem 'X' (by simp)) (by decide)
  have hdig : (natToDecChars n).all isDecDigit = true := List.all_eq_true.mpr hall
  rw [jsNumberOfString, jsNumberToString]
  simp only [h1, hx, hdig, decDigitsVal_natToDecChars, if_false, if_true,
    Bool.false_eq_true, if_neg hx]

/-! ## Structural lemmas on the conversions -/

theorem base_attachSignature (b : EVMTransaction) (r s : Option String) (v : Option Nat) :
    (attachSignature b r s v).base = b := by
  rcases r with _ | rv <;> rcases s with _ | sv <;> rcases v with _ | vv <;>
    first
      | rfl
      | (rw [attachSignature]; split <;> rfl)

theorem txFromEthersTx_eq_ok (tx : EthersTx) (asset : FungibleAsset) (network : EVMNetwork)
    (hash : String) (t : Nat) (value : Nat)
    (hh : tx.hash = some hash) (ht : tx.type = some t)
    (h012 : t = 0 ∨ t = 1 ∨ t = 2)
    (hv : derivedValue tx asset = .ok value) :
    txFromEthersTx tx asset network
      = .ok (attachSignature (mkNewTx tx asset network hash t value) tx.r tx.s tx.v) := by
  rw [txFromEthersTx]
  simp only [hh, ht, hv, if_pos h012]

theorem txFromEthersTx_ok_inv {tx : EthersTx} {asset : FungibleAsset}
    {network : EVMNetwork} {out : AnyEVMTransaction}
    (h : txFromEthersTx tx asset network = .ok out) :
    ∃ hash t value,
      tx.hash = some hash ∧ tx.type = some t ∧ (t = 0 ∨ t = 1 ∨ t = 2)
      ∧ derivedValue tx asset = .ok value
      ∧ out = attachSignature (mkNewTx tx asset network hash t value) tx.r tx.s tx.v := by
  rw [txFromEthersTx] at h
  cases hh : tx.hash with
  | none => simp [hh] at h
  | some hash =>
    simp only [hh] at h
    cases ht : tx.type with
    | none => simp [ht] at h
    | some t =>
      simp only [ht] at h
      by_cases h012 : t = 0 ∨ t = 1 ∨ t = 2
      · rw [if_pos h012] at h
        cases hv : derivedValue tx asset with
        | error e => simp [hv] at h
        | ok value =>
          simp only [hv] at h
          exact ⟨hash, t, value, rfl, rfl, h012, rfl, (Except.ok.inj h).symm⟩
      · rw [if_neg h012] at h
        exact absurd h (by simp)

/-- The transaction txFromWebsocketTx assembles once every throwing
conversion has produced a value. -/
def mkWsTx (tx : WebsocketTxPayload) (asset : FungibleAsset) (network : EVMNetwork)
    (gasLimit gasPrice : Nat) (maxFeePerGas maxPriorityFeePerGas : Option Nat)
    (v value t : Nat) : WebsocketEVMTransaction :=
  { hash := tx.hash
    to_ := tx.to_
    from_ := tx.from_
    gasLimit := gasLimit
    gasPrice := gasPrice
    maxFeePerGas := maxFeePerGas
    maxPriorityFeePerGas := maxPriorityFeePerGas
    input := tx.input
    r := jsOrNullStr tx.r
    s := jsOrNullStr tx.s
    v := v
    nonce := jsNumberOfOptString tx.nonce
    value := value
    blockHash := jsOptCoalesceStr tx.blockHash
    blockHeight := jsOptCoalesceNat tx.blockNumber
    type := t
    asset := asset
    network := network }

theorem txFromWebsocketTx_eq_ok (tx : WebsocketTxPayload) (asset : FungibleAsset)
    (network : EVMNetwork) (gasLimit gasPrice : Nat)
    (maxFeePerGas maxPriorityFeePerGas : Option Nat) (vBN v value t : Nat)
    (h1 : jsBigIntOfOptString tx.gas = .ok gasLimit)
    (h2 : jsBigIntOfOptString tx.gasPrice = .ok gasPrice)
    (h3 : truthyBigIntJsOpt tx.maxFeePerGas = .ok maxFeePerGas)
    (h4 : truthyBigIntJsOpt tx.maxPriorityFeePerGas = .ok maxPriorityFeePerGas)
    (h5 : bigNumberFromOptString tx.v = .ok vBN)
    (h6 : bigNumberToNumber vBN = .ok v)
    (h7 : jsBigIntOfOptString tx.value = .ok value)
    (h8 : wsType tx.type = .ok t) :
    txFromWebsocketTx tx asset network
      = .ok (mkWsTx tx asset network gasLimit gasPrice maxFeePerGas
          maxPriorityFeePerGas v value t) := by
  rw [txFromWebsocketTx]
  simp only [h1, h2, h3, h4, h5, h6, h7, h8]
  rfl

theorem txFromWebsocketTx_ok_inv {tx : WebsocketTxPayload} {asset : FungibleAsset}
    {network : EVMNetwork} {out : WebsocketEVMTransaction}
    (h : txFromWebsocketTx tx asset network = .ok out) :
    ∃ gasLimit gasPrice maxFeePerGas maxPriorityFeePerGas vBN v value t,
      jsBigIntOfOptString tx.gas = .ok gasLimit
      ∧ jsBigIntOfOptString tx.gasPrice = .ok gasPrice
      ∧ truthyBigIntJsOpt tx.maxFeePerGas = .ok maxFeePerGas
      ∧ truthyBigIntJsOpt tx.maxPriorityFeePerGas = .ok maxPriorityFeePerGas
      ∧ bigNumberFromOptString tx.v = .ok vBN
      ∧ bigNumberToNumber vBN = .ok v
      ∧ jsBigIntOfOptString tx.value = .ok value
      ∧ wsType tx.type = .ok t
      ∧ out = mkWsTx tx asset network gasLimit gasPrice maxFeePerGas
          maxPriorityFeePerGas v value t := by
  rw [txFromWebsocketTx] at h
  cases h1 : jsBigIntOfOptString tx.gas with
  | error e => simp [h1] at h
  | ok gasLimit =>
    simp only [h1] at h
    cases h2 : jsBigIntOfOptString tx.gasPrice with
    | error e => simp [h2] at h
    | ok gasPrice =>
      simp only [h2] at h
      cases h3 : truthyBigIntJsOpt tx.maxFeePerGas with
      | error e => simp [h3] at h
      | ok maxFeePerGas =>
        simp only [h3] at h
        cases h4 : truthyBigIntJsOpt tx.maxPriorityFeePerGas with
        | error e => simp [h4] at h
        | ok maxPriorityFeePerGas =>
          simp only [h4] at h
          cases h5 : bigNumberFromOptString tx.v with
          | error e => simp [h5] at h
          | ok vBN =>
            simp only [h5] at h
            cases h6 : bigNumberToNumber vBN with
            | error e => simp [h6] at h
            | ok v =>
              simp only [h6] at h
              cases h7 : jsBigIntOfOptString tx.value with
              | error e => simp [h7] at h
              | ok value =>
                simp only [h7] at h
                cases h8 : wsType tx.type with
                | error e => simp [h8] at h
                | ok t =>
                  simp only [h8] at h
                  exact ⟨gasLimit, gasPrice, maxFeePerGas, maxPriorityFeePerGas,
                    vBN, v, value, t, rfl, rfl, rfl, rfl, rfl, h6, rfl, rfl,
                    (Except.ok.inj h).symm⟩

/-- The block blockFromWebsocketBlock assembles once every throwing
conversion has produced a value. -/
def mkWsBlock (gethResult : WebsocketBlockPayload) (blockHeight difficulty timestamp : Nat)
    (baseFeePerGas : Option Nat) : AnyEVMBlock :=
  { hash := gethResult.hash
    blockHeight := blockHeight
    parentHash := gethResult.parentHash
    difficulty := difficulty
    timestamp := timestamp
    baseFeePerGas := baseFeePerGas
    network := ETHEREUM }

theorem blockFromWebsocketBlock_eq_ok (gethResult : WebsocketBlockPayload)
    (numberBN blockHeight difficulty timestampBN timestamp : Nat)
    (baseFeePerGas : Option Nat)
    (h1 : bigNumberFromOptString gethResult.number = .ok numberBN)
    (h2 : bigNumberToNumber numberBN = .ok blockHeight)
    (h3 : jsBigIntOfOptString gethResult.difficulty = .ok difficulty)
    (h4 : bigNumberFromOptString gethResult.timestamp = .ok timestampBN)
    (h5 : bigNumberToNumber timestampBN = .ok timestamp)
    (h6 : truthyBigIntOpt gethResult.baseFeePerGas = .ok baseFeePerGas) :
    blockFromWebsocketBlock gethResult
      = .ok (mkWsBlock gethResult blockHeight difficulty timestamp baseFeePerGas) := by
  rw [blockFromWebsocketBlock]
  simp only [h1, h2, h3, h4, h5, h6]
  rfl

theorem blockFromWebsocketBlock_ok_inv {gethResult : WebsocketBlockPayload}
    {b : AnyEVMBlock} (h : blockFromWebsocketBlock gethResult = .ok b) :
    ∃ numberBN blockHeight difficulty timestampBN timestamp baseFeePerGas,
      bigNumberFromOptString gethResult.number = .ok numberBN
      ∧ bigNumberToNumber numberBN = .ok blockHeight
      ∧ jsBigIntOfOptString gethResult.difficulty = .ok difficulty
      ∧ bigNumberFromOptString gethResult.timestamp = .ok timestampBN
      ∧ bigNumberToNumber timestampBN = .ok timestamp
      ∧ truthyBigIntOpt gethResult.baseFeePerGas = .ok baseFeePerGas
      ∧ b = mkWsBlock gethResult blockHeight difficulty timestamp baseFeePerGas := by
  rw [blockFromWebsocketBlock] at h
  cases h1 : bigNumberFromOptString gethResult.number with
  | error e => simp [h1] at h
  | ok numberBN =>
    simp only [h1] at h
    cases h2 : bigNumberToNumber numberBN with
    | error e => simp [h2] at h
    | ok blockHeight =>
      simp only [h2] at h
      cases h3 : jsBigIntOfOptString gethResult.difficulty with
      | error e => simp [h3] at h
      | ok difficulty =>
        simp only [h3] at h
        cases h4 : bigNumberFromOptString gethResult.timestamp with
        | error e => simp [h4] at h
        | ok timestampBN =>
          simp only [h4] at h
          cases h5 : bigNumberToNumber timestampBN with
          | error e => simp [h5] at h
          | ok timestamp =>
            simp only [h5] at h
            cases h6 : truthyBigIntOpt gethResult.baseFeePerGas with
            | error e => simp [h6] at h
            | ok baseFeePerGas =>
              simp only [h6] at h
              exact ⟨numberBN, blockHeight, difficulty, timestampBN, timestamp,
                baseFeePerGas, rfl, h2, rfl, rfl, h5, rfl, (Except.ok.inj h).symm⟩

/-! ## Concrete fixtures -/

/-- The native asset of the fixed network. -/
def ethAsset : FungibleAsset := { symbol := "ETH", decimals := 18 }

/-- A smart-contract fungible asset that is not the native asset. -/
def daiAsset : FungibleAsset := { symbol := "DAI", decimals := 18 }

/-- A 64-hex-character transfer amount whose exact big-endian value is
2^53 + 1, the smallest odd integer beyond double precision. -/
def overAmountHex : String :=
  "0000000000000000000000000000000000000000000000000020000000000001"

/-- A polled token-transfer payload whose call data is the canonical
transfer layout: 4-byte selector, 32-byte padded address, then the
32-byte amount 2^53 + 1. -/
def overAmountTx : EthersTx :=
  { hash := some "0x01", to_ := some "0xd", from_ := "0xs",
    nonce := 0, gasLimit := 21000, gasPrice := none, maxFeePerGas := some 3,
    maxPriorityFeePerGas := some 1,
    data := "0xa9059cbb0000000000000000000000001111111111111111111111111111111111111111"
      ++ overAmountHex,
    value := 0, type := some 2,
    r := none, s := none, v := none, blockHash := none, blockNumber := none }

/-! ## Claims -/

/-- C1: the claim states that for a non-native asset the returned value
equals the last 32 bytes (64 hex characters) of the call data decoded as
a big-endian unsigned integer. The code computes
BigInt(parseInt(tx.data.slice(-64), 16)), which routes the 256-bit
quantity through a double: on the payload whose last 64 hex characters
decode exactly to 2^53 + 1 the code returns 2^53, not the exact decode
2^53 + 1, so amounts beyond 53 bits (any token transfer above roughly
0.009 tokens at 18 decimals) are silently rounded. -/
theorem c1_value_rounds_through_double :
    (txFromEthersTx overAmountTx daiAsset ETHEREUM).map (fun out => out.base.value)
      = .ok 9007199254740992
    ∧ sliceLast 64 overAmountTx.data = overAmountHex
    ∧ hexDigitsVal overAmountHex.data = 9007199254740993 := by
  refine ⟨by decide, by decide, by decide⟩

/-- A well-formed polled payload for the success branches. -/
def polledTx0 : EthersTx :=
  { hash := some "0x02", to_ := some "0xd", from_ := "0xs",
    nonce := 7, gasLimit := 21000, gasPrice := some 5, maxFeePerGas := none,
    maxPriorityFeePerGas := none, data := "0x", value := 42, type := some 2,
    r := none, s := none, v := none, blockHash := none, blockNumber := none }

/-- C2: when the payload type is not literal 0, 1 or 2 (including an
absent type), txFromEthersTx never returns an entity — and, once the
hash check passes, fails precisely with the unknown-transaction-type
error carrying the offending type — while on an otherwise-valid payload
with type 0, 1 or 2 it succeeds and the returned entity keeps exactly the
payload type. -/
theorem c2_unsupported_type_gate (tx : EthersTx) (asset : FungibleAsset)
    (network : EVMNetwork) :
    ((tx.type ≠ some 0 ∧ tx.type ≠ some 1 ∧ tx.type ≠ some 2) →
      (∀ out, txFromEthersTx tx asset network ≠ .ok out)
      ∧ (∀ hash, tx.hash = some hash →
          txFromEthersTx tx asset network = .error (.unknownTransactionType tx.type)))
    ∧ (∀ hash t, tx.hash = some hash → tx.type = some t → (t = 0 ∨ t = 1 ∨ t = 2) →
        (asset.symbol = "ETH" ∨ (jsParseIntHex (sliceLast 64 tx.data)).isSome = true) →
        ∃ out, txFromEthersTx tx asset network = .ok out ∧ out.base.type = t) := by
  constructor
  · intro htype
    constructor
    · intro out hok
      obtain ⟨hash, t, value, _, ht, h012, _, _⟩ := txFromEthersTx_ok_inv hok
      rcases h012 with h | h | h <;> subst h
      · exact htype.1 ht
      · exact htype.2.1 ht
      · exact htype.2.2 ht
    · intro hash hh
      rw [txFromEthersTx]
      simp only [hh]
      cases ht : tx.type with
      | none => rfl
      | some t =>
        have h012 : ¬(t = 0 ∨ t = 1 ∨ t = 2) := by
          rintro (h | h | h) <;> subst h <;>
            first
              | exact htype.1 ht
              | exact htype.2.1 ht
              | exact htype.2.2 ht
        simp only [if_neg h012]
  · intro hash t hh ht h012 hval
    have hderiv : ∃ value, derivedValue tx asset = .ok value := by
      rw [derivedValue]
      by_cases hsym : asset.symbol = "ETH"
      · rw [if_neg (by simp [hsym])]
        exact ⟨tx.value, rfl⟩
      · rcases hval with hval | hval
        · exact absurd hval hsym
        · obtain ⟨n, hn⟩ := Option.isSome_iff_exists.mp hval
          rw [hn]
          by_cases hs : asset.symbol ≠ "ETH"
          · rw [if_pos hs]
            exact ⟨n, rfl⟩
          · exact absurd (by simpa using hs) hsym
    obtain ⟨value, hv⟩ := hderiv
    refine ⟨attachSignature (mkNewTx tx asset network hash t value) tx.r tx.s tx.v,
      txFromEthersTx_eq_ok tx asset network hash t value hh ht h012 hv, ?_⟩
    rw [base_attachSignature]
    rfl

/-- Witness for C2 at a concrete type-2 payload. -/
theorem c2_unsupported_type_gate_witness :
    ∃ out, txFromEthersTx polledTx0 ethAsset ETHEREUM = .ok out ∧ out.base.type = 2 :=
  (c2_unsupported_type_gate polledTx0 ethAsset ETHEREUM).2 "0x02" 2 rfl rfl
    (by decide) (Or.inl rfl)

theorem attachSignature_cases (b : EVMTransaction) (r s : Option String) (v : Option Nat) :
    ((truthyOptStr r && truthyOptStr s && truthyOptNat v) = true →
      ∃ rv sv vv, r = some rv ∧ s = some sv ∧ v = some vv
        ∧ attachSignature b r s v = .signed b rv sv vv)
    ∧ ((truthyOptStr r && truthyOptStr s && truthyOptNat v) = false →
      attachSignature b r s v = .unsigned b) := by
  rcases r with _ | rv <;> rcases s with _ | sv <;> rcases v with _ | vv <;>
    constructor <;> intro h <;>
      simp_all [truthyOptStr, truthyOptNat, attachSignature]

/-- A polled payload carrying a full truthy signature. -/
def polledSignedTx0 : EthersTx :=
  { polledTx0 with hash := some "0x03", r := some "0x1", s := some "0x2", v := some 27 }

/-- C3: whenever txFromEthersTx returns an entity, that entity is the
signed variant — with the payload r, s and v attached verbatim — exactly
when r, s and v are all present and truthy in the payload, and the
unsigned variant in every other case; the truthiness of the three
signature fields is thus the only branch point between the two variants. -/
theorem c3_signature_branch (tx : EthersTx) (asset : FungibleAsset)
    (network : EVMNetwork) (out : AnyEVMTransaction)
    (hok : txFromEthersTx tx asset network = .ok out) :
    ((truthyOptStr tx.r && truthyOptStr tx.s && truthyOptNat tx.v) = true →
      ∃ r s v, tx.r = some r ∧ tx.s = some s ∧ tx.v = some v
        ∧ out = .signed out.base r s v)
    ∧ ((truthyOptStr tx.r && truthyOptStr tx.s && truthyOptNat tx.v) = false →
      out = .unsigned out.base) := by
  obtain ⟨hash, t, value, _, _, _, _, hout⟩ := txFromEthersTx_ok_inv hok
  constructor
  · intro htruthy
    obtain ⟨rv, sv, vv, hr, hs, hv, hsig⟩ :=
      (attachSignature_cases (mkNewTx tx asset network hash t value) tx.r tx.s tx.v).1 htruthy
    refine ⟨rv, sv, vv, hr, hs, hv, ?_⟩
    rw [hout, hsig]
    rfl
  · intro hfalsy
    have hunsig :=
      (attachSignature_cases (mkNewTx tx asset network hash t value) tx.r tx.s tx.v).2 hfalsy
    rw [hout, hunsig]
    rfl

/-- Witness for C3: a payload with r, s and v all present and truthy
yields the signed variant carrying them verbatim. -/
theorem c3_signature_branch_witness :
    ∃ out, txFromEthersTx polledSignedTx0 ethAsset ETHEREUM = .ok out
      ∧ ∃ r s v, polledSignedTx0.r = some r ∧ polledSignedTx0.s = some s
        ∧ polledSignedTx0.v = some v ∧ out = .signed out.base r s v := by
  have hok : txFromEthersTx polledSignedTx0 ethAsset ETHEREUM
      = .ok (attachSignature (mkNewTx polledSignedTx0 ethAsset ETHEREUM "0x03" 2
          polledSignedTx0.value) polledSignedTx0.r polledSignedTx0.s polledSignedTx0.v) := by
    decide
  exact ⟨_, hok, (c3_signature_branch polledSignedTx0 ethAsset ETHEREUM _ hok).1 (by decide)⟩

/-- A canonical signed transaction with the v signature component 0, the
even y-parity every other dynamic-fee transaction carries. -/
def signedTxV0 : SignedEVMTransaction :=
  { hash := "0x04", from_ := "0xf", to_ := some "0xt", nonce := 1, gasLimit := 21000,
    gasPrice := none, maxFeePerGas := some 2, maxPriorityFeePerGas := some 1,
    value := 5, input := "0x", type := 2, blockHash := none, blockHeight := none,
    network := ETHEREUM, asset := ethAsset, r := "0x1", s := "0x2", v := 0 }

/-- C4 counterexample: re-parsing the broadcast shape of a signed
transaction whose v is 0 (supplying the hash and type the broadcast shape
lacks) succeeds but yields the unsigned variant, because the signed
branch tests JavaScript truthiness and 0 is falsy — so r, s and v are not
preserved bit-for-bit as the claim requires for every signed
transaction. -/
theorem c4_roundtrip_counterexample :
    (txFromEthersTx (repolledTx (ethersTxFromSignedTx signedTxV0) signedTxV0.hash
        signedTxV0.type) signedTxV0.asset signedTxV0.network).map
      AnyEVMTransaction.isSigned = .ok false := by
  decide

/-- C4 amended: the round trip preserves nonce, to, from, value, gasLimit,
r, s and v provided the asset is the native ETH asset (a non-native asset
re-derives the value from the call data), r and s are nonempty and v is
nonzero (a falsy component drops the signed variant), the type is 0, 1 or
2 and the nonce is in the safe-integer range; the re-parse needs a hash
and the type supplied, since the broadcast shape carries neither. -/
theorem c4_roundtrip_preserves (stx : SignedEVMTransaction) (hash : String)
    (hEth : stx.asset.symbol = "ETH")
    (hty : stx.type = 0 ∨ stx.type = 1 ∨ stx.type = 2)
    (hr : stx.r ≠ "") (hs : stx.s ≠ "") (hv : stx.v ≠ 0)
    (hnonce : stx.nonce < 2 ^ 53) :
    ∃ base,
      txFromEthersTx (repolledTx (ethersTxFromSignedTx stx) hash stx.type)
          stx.asset stx.network
        = .ok (.signed base stx.r stx.s stx.v)
      ∧ base.nonce = stx.nonce ∧ base.to_ = stx.to_ ∧ base.from_ = stx.from_
      ∧ base.value = stx.value ∧ base.gasLimit = stx.gasLimit := by
  have hderiv : derivedValue (repolledTx (ethersTxFromSignedTx stx) hash stx.type)
      stx.asset = .ok stx.value := by
    rw [derivedValue, if_neg (by simp [hEth])]
    rfl
  have h := txFromEthersTx_eq_ok (repolledTx (ethersTxFromSignedTx stx) hash stx.type)
    stx.asset stx.network hash stx.type stx.value rfl rfl hty hderiv
  refine ⟨mkNewTx (repolledTx (ethersTxFromSignedTx stx) hash stx.type) stx.asset
    stx.network hash stx.type stx.value, ?_, ?_, rfl, rfl, rfl, rfl⟩
  · rw [h]
    show Except.ok (attachSignature _ (some stx.r) (some stx.s) (some stx.v)) = _
    rw [attachSignature, if_pos ⟨hr, hs, hv⟩]
  · show jsParseIntOfNumberString stx.nonce = stx.nonce
    exact jsParseIntOfNumberString_eq hnonce

/-- The v = 27 variant of the same signed transaction. -/
def signedTxV27 : SignedEVMTransaction := { signedTxV0 with v := 27 }

/-- Witness for the amended C4 at a concrete signed transaction. -/
theorem c4_roundtrip_preserves_witness :
    ∃ base,
      txFromEthersTx (repolledTx (ethersTxFromSignedTx signedTxV27) "0x04"
          signedTxV27.type) signedTxV27.asset signedTxV27.network
        = .ok (.signed base signedTxV27.r signedTxV27.s signedTxV27.v)
      ∧ base.nonce = signedTxV27.nonce ∧ base.to_ = signedTxV27.to_
      ∧ base.from_ = signedTxV27.from_ ∧ base.value = signedTxV27.value
      ∧ base.gasLimit = signedTxV27.gasLimit :=
  c4_roundtrip_preserves signedTxV27 "0x04" rfl (Or.inr (Or.inr rfl)) (by decide)
    (by decide) (by decide) (by decide)

theorem option_isSome_false_iff {α : Type} {m : Option α} :
    m.isSome = false ↔ m = none := by
  cases m <;> simp

theorem truthyBigIntJsOpt_isSome {s : JsOpt String} {m : Option Nat}
    (h : truthyBigIntJsOpt s = .ok m) : m.isSome = jsOptTruthyStr s := by
  cases s with
  | undef =>
    simp only [truthyBigIntJsOpt] at h
    cases h
    rfl
  | null =>
    simp only [truthyBigIntJsOpt] at h
    cases h
    rfl
  | val str =>
    simp only [truthyBigIntJsOpt] at h
    by_cases hstr : str = ""
    · rw [if_pos hstr] at h
      cases h
      simp [jsOptTruthyStr, hstr]
    · rw [if_neg hstr] at h
      cases hbi : jsBigIntOfString str with
      | error e => rw [hbi] at h; exact absurd h (by simp [Except.map])
      | ok n =>
        rw [hbi] at h
        cases h
        simp [jsOptTruthyStr, hstr]

theorem bigNumberToNumber_ok {n m : Nat} (h : bigNumberToNumber n = .ok m) :
    m = n ∧ n ≤ maxSafeInteger := by
  rw [bigNumberToNumber] at h
  by_cases hle : n ≤ maxSafeInteger
  · rw [if_pos hle] at h
    exact ⟨(Except.ok.inj h).symm, hle⟩
  · rw [if_neg hle] at h
    exact absurd h (by simp)

/-- The spec invariant tying the transaction type to the fee fields. -/
def feeInvariant (t : Nat) (gasPrice maxFeePerGas maxPriorityFeePerGas : Option Nat) :
    Prop :=
  (t = 0 → gasPrice.isSome = true ∧ maxFeePerGas = none ∧ maxPriorityFeePerGas = none)
  ∧ ((t = 1 ∨ t = 2) → maxFeePerGas.isSome = true ∧ maxPriorityFeePerGas.isSome = true)

/-- C5 counterexample: fromPolledTx accepts a type-2 payload carrying no
fee-per-gas fields and returns a type-2 transaction whose maxFeePerGas
and maxPriorityFeePerGas are null; the claimed invariant rejects exactly
that combination. -/
theorem c5_invariant_counterexample :
    (txFromEthersTx polledTx0 ethAsset ETHEREUM).map
        (fun out => (out.base.type, out.base.maxFeePerGas, out.base.maxPriorityFeePerGas))
      = .ok (2, none, none)
    ∧ ¬feeInvariant 2 (some 5) none none := by
  constructor
  · decide
  · intro hinv
    have h := hinv.2 (Or.inr rfl)
    simp at h

/-- C5 amended: the normalizers copy the fee fields from the payload
rather than enforcing the invariant — for a successful fromPolledTx the
output fee fields equal the payload fields verbatim, so the invariant
holds exactly when the payload fee fields already satisfy it for the
output type; for a successful fromSubscriptionTx gasPrice is always
present and each fee-per-gas output is present exactly when the payload
field is truthy, so the invariant holds under the matching payload-side
conditions. -/
theorem c5_fee_fields_copied (tx : EthersTx) (wtx : WebsocketTxPayload)
    (asset : FungibleAsset) (network : EVMNetwork) :
    (∀ out, txFromEthersTx tx asset network = .ok out →
      out.base.gasPrice = tx.gasPrice
      ∧ out.base.maxFeePerGas = tx.maxFeePerGas
      ∧ out.base.maxPriorityFeePerGas = tx.maxPriorityFeePerGas
      ∧ (feeInvariant out.base.type tx.gasPrice tx.maxFeePerGas tx.maxPriorityFeePerGas →
          feeInvariant out.base.type out.base.gasPrice out.base.maxFeePerGas
            out.base.maxPriorityFeePerGas))
    ∧ (∀ out, txFromWebsocketTx wtx asset network = .ok out →
      out.maxFeePerGas.isSome = jsOptTruthyStr wtx.maxFeePerGas
      ∧ out.maxPriorityFeePerGas.isSome = jsOptTruthyStr wtx.maxPriorityFeePerGas
      ∧ ((out.type = 0 → jsOptTruthyStr wtx.maxFeePerGas = false
            ∧ jsOptTruthyStr wtx.maxPriorityFeePerGas = false) →
         ((out.type = 1 ∨ out.type = 2) → jsOptTruthyStr wtx.maxFeePerGas = true
            ∧ jsOptTruthyStr wtx.maxPriorityFeePerGas = true) →
         feeInvariant out.type (some out.gasPrice) out.maxFeePerGas
           out.maxPriorityFeePerGas)) := by
  constructor
  · intro out hok
    obtain ⟨hash, t, value, _, _, _, _, hout⟩ := txFromEthersTx_ok_inv hok
    subst hout
    rw [base_attachSignature]
    exact ⟨rfl, rfl, rfl, fun hinv => hinv⟩
  · intro out hok
    obtain ⟨gasLimit, gasPrice, maxFee, maxPrio, vBN, v, value, t,
      h1, h2, h3, h4, h5, h6, h7, h8, hout⟩ := txFromWebsocketTx_ok_inv hok
    subst hout
    simp only [mkWsTx]
    refine ⟨truthyBigIntJsOpt_isSome h3, truthyBigIntJsOpt_isSome h4, ?_⟩
    intro h0 h12
    constructor
    · intro ht0
      refine ⟨rfl, ?_, ?_⟩
      · exact option_isSome_false_iff.mp
          (by rw [truthyBigIntJsOpt_isSome h3]; exact (h0 ht0).1)
      · exact option_isSome_false_iff.mp
          (by rw [truthyBigIntJsOpt_isSome h4]; exact (h0 ht0).2)
    · intro ht12
      refine ⟨?_, ?_⟩
      · rw [truthyBigIntJsOpt_isSome h3]; exact (h12 ht12).1
      · rw [truthyBigIntJsOpt_isSome h4]; exact (h12 ht12).2

/-- A well-formed subscription payload with all required fields present
and the optional fee, signature and type fields absent. -/
def wsTx0 : WebsocketTxPayload :=
  { hash := some "0x08", to_ := some "0xt", from_ := some "0xf", gas := some "0x5208",
    gasPrice := some "0x1", maxFeePerGas := .undef, maxPriorityFeePerGas := .undef,
    input := some "0x", r := none, s := none, v := some "0x1b", nonce := some "0x0",
    value := some "0x0", blockHash := .null, blockNumber := .null, type := .undef }

/-- A fee-consistent type-2 polled payload. -/
def polledTx2 : EthersTx :=
  { polledTx0 with
    hash := some "0x52"
    maxFeePerGas := some 3
    maxPriorityFeePerGas := some 1 }

/-- Witness for the amended C5 at a fee-consistent concrete payload. -/
theorem c5_fee_fields_copied_witness :
    ∃ out, txFromEthersTx polledTx2 ethAsset ETHEREUM = .ok out
      ∧ feeInvariant out.base.type out.base.gasPrice out.base.maxFeePerGas
          out.base.maxPriorityFeePerGas := by
  have hok : txFromEthersTx polledTx2 ethAsset ETHEREUM
      = .ok (attachSignature (mkNewTx polledTx2 ethAsset ETHEREUM "0x52" 2
          polledTx2.value) polledTx2.r polledTx2.s polledTx2.v) := by decide
  refine ⟨_, hok, ((c5_fee_fields_copied polledTx2 wsTx0 ethAsset ETHEREUM).1 _ hok).2.2.2 ?_⟩
  constructor
  · intro h
    exact absurd h (by decide)
  · intro _
    exact ⟨rfl, rfl⟩

/-- A subscription block payload with hash and parentHash both absent but
every numeric field well-formed. -/
def hashlessBlock : WebsocketBlockPayload :=
  { hash := none, number := some "0x1", parentHash := none, difficulty := some "0x2",
    timestamp := some "0x3", baseFeePerGas := none }

/-- C6 counterexample: fromSubscriptionBlock converts a payload missing
both hash and parentHash without any failure, so no MalformedInput error
exists on that path; the absent fields flow into the returned block. -/
theorem c6_missing_hash_counterexample :
    blockFromWebsocketBlock hashlessBlock
      = .ok { hash := none, blockHeight := 1, parentHash := none, difficulty := 2,
              timestamp := 3, baseFeePerGas := none, network := ETHEREUM } := by
  decide

/-- C6 amended: fromSubscriptionBlock performs no presence check on hash
or parentHash — whenever the numeric fields decode, the conversion
succeeds and copies hash and parentHash through verbatim, an absent field
staying absent in the returned block. -/
theorem c6_no_hash_check (g : WebsocketBlockPayload)
    (numberBN blockHeight difficulty timestampBN timestamp : Nat)
    (baseFeePerGas : Option Nat)
    (h1 : bigNumberFromOptString g.number = .ok numberBN)
    (h2 : bigNumberToNumber numberBN = .ok blockHeight)
    (h3 : jsBigIntOfOptString g.difficulty = .ok difficulty)
    (h4 : bigNumberFromOptString g.timestamp = .ok timestampBN)
    (h5 : bigNumberToNumber timestampBN = .ok timestamp)
    (h6 : truthyBigIntOpt g.baseFeePerGas = .ok baseFeePerGas) :
    ∃ b, blockFromWebsocketBlock g = .ok b ∧ b.hash = g.hash
      ∧ b.parentHash = g.parentHash :=
  ⟨mkWsBlock g blockHeight difficulty timestamp baseFeePerGas,
    blockFromWebsocketBlock_eq_ok g numberBN blockHeight difficulty timestampBN timestamp
      baseFeePerGas h1 h2 h3 h4 h5 h6, rfl, rfl⟩

/-- Witness for the amended C6 at the concrete hashless payload. -/
theorem c6_no_hash_check_witness :
    ∃ b, blockFromWebsocketBlock hashlessBlock = .ok b ∧ b.hash = hashlessBlock.hash
      ∧ b.parentHash = hashlessBlock.parentHash :=
  c6_no_hash_check hashlessBlock 1 1 2 3 3 none (by decide) (by decide) (by decide)
    (by decide) (by decide) (by decide)

/-- C7: a subscription block payload whose number decodes beyond the
safe-integer ceiling fails with the overflow error; one whose timestamp
decodes beyond the ceiling fails the same way once the earlier fields
decode; and every successfully returned block carries exactly the decoded
number and timestamp values, untruncated. -/
theorem c7_safe_integer_gate (g : WebsocketBlockPayload) :
    (∀ n, bigNumberFromOptString g.number = .ok n → maxSafeInteger < n →
      blockFromWebsocketBlock g = .error .overflow)
    ∧ (∀ n d ts, bigNumberFromOptString g.number = .ok n → n ≤ maxSafeInteger →
        jsBigIntOfOptString g.difficulty = .ok d →
        bigNumberFromOptString g.timestamp = .ok ts → maxSafeInteger < ts →
        blockFromWebsocketBlock g = .error .overflow)
    ∧ (∀ b, blockFromWebsocketBlock g = .ok b →
        bigNumberFromOptString g.number = .ok b.blockHeight
        ∧ bigNumberFromOptString g.timestamp = .ok b.timestamp) := by
  refine ⟨?_, ?_, ?_⟩
  · intro n hn hover
    rw [blockFromWebsocketBlock]
    simp only [hn, bigNumberToNumber, if_neg (by omega : ¬n ≤ maxSafeInteger)]
  · intro n d ts hn hsafe hd hts hover
    rw [blockFromWebsocketBlock]
    simp only [hn, hd, hts, bigNumberToNumber, if_pos hsafe,
      if_neg (by omega : ¬ts ≤ maxSafeInteger)]
  · intro b hok
    obtain ⟨numberBN, blockHeight, difficulty, timestampBN, timestamp, baseFeePerGas,
      h1, h2, h3, h4, h5, h6, hb⟩ := blockFromWebsocketBlock_ok_inv hok
    obtain ⟨hbh, _⟩ := bigNumberToNumber_ok h2
    obtain ⟨hts, _⟩ := bigNumberToNumber_ok h5
    subst hb
    constructor
    · show bigNumberFromOptString g.number = .ok blockHeight
      rw [hbh]
      exact h1
    · show bigNumberFromOptString g.timestamp = .ok timestamp
      rw [hts]
      exact h4

/-- A subscription block payload whose number decodes to 2^53, one past
the safe ceiling. -/
def overflowBlock : WebsocketBlockPayload :=
  { hashlessBlock with
    hash := some "0xbh"
    parentHash := some "0xph"
    number := some "0x20000000000000" }

/-- Witness for C7 at the concrete overflowing payload. -/
theorem c7_safe_integer_gate_witness :
    blockFromWebsocketBlock overflowBlock = .error .overflow :=
  (c7_safe_integer_gate overflowBlock).1 9007199254740992 (by decide) (by decide)

/-- The same subscription payload with gasPrice absent. -/
def wsTxNoGasPrice : WebsocketTxPayload := { wsTx0 with gasPrice := none }

/-- C8 counterexample: a subscription payload with gasPrice absent makes
fromSubscriptionTx throw — BigInt of undefined is a TypeError — rather
than mapping the field to null as the claim requires of every absent
optional numeric field. -/
theorem c8_gasprice_counterexample :
    txFromWebsocketTx wsTxNoGasPrice ethAsset ETHEREUM = .error .typeError := by
  decide

/-- C8 amended: only the fee-per-gas fields tolerate absence among the
numeric fields — an absent maxFeePerGas or maxPriorityFeePerGas maps to
null, an absent r or s maps to undefined, an absent type defaults to 0
and an absent nonce silently becomes NaN rather than null — while gas,
gasPrice, value and v are required: a payload with any of the four
absent never converts. -/
theorem c8_optional_fields (wtx : WebsocketTxPayload) (asset : FungibleAsset)
    (network : EVMNetwork) :
    (∀ out, txFromWebsocketTx wtx asset network = .ok out →
      (wtx.maxFeePerGas = .undef ∨ wtx.maxFeePerGas = .null → out.maxFeePerGas = none)
      ∧ (wtx.maxPriorityFeePerGas = .undef ∨ wtx.maxPriorityFeePerGas = .null →
          out.maxPriorityFeePerGas = none)
      ∧ (wtx.r = none → out.r = none) ∧ (wtx.s = none → out.s = none)
      ∧ (wtx.type = .undef → out.type = 0)
      ∧ (wtx.nonce = none → out.nonce = none))
    ∧ ((wtx.gas = none ∨ wtx.gasPrice = none ∨ wtx.value = none ∨ wtx.v = none) →
        ∀ out, txFromWebsocketTx wtx asset network ≠ .ok out) := by
  constructor
  · intro out hok
    obtain ⟨gasLimit, gasPrice, maxFee, maxPrio, vBN, v, value, t,
      h1, h2, h3, h4, h5, h6, h7, h8, hout⟩ := txFromWebsocketTx_ok_inv hok
    subst hout
    simp only [mkWsTx]
    refine ⟨?_, ?_, ?_, ?_, ?_, ?_⟩
    · rintro (hmf | hmf) <;> rw [hmf] at h3 <;>
        simpa using (Except.ok.inj h3).symm
    · rintro (hmp | hmp) <;> rw [hmp] at h4 <;>
        simpa using (Except.ok.inj h4).symm
    · intro hr
      rw [hr]
      rfl
    · intro hs
      rw [hs]
      rfl
    · intro htype
      rw [htype] at h8
      simpa using (Except.ok.inj h8).symm
    · intro hnonce
      rw [hnonce]
      rfl
  · intro habs out hok
    obtain ⟨gasLimit, gasPrice, maxFee, maxPrio, vBN, v, value, t,
      h1, h2, h3, h4, h5, h6, h7, h8, _⟩ := txFromWebsocketTx_ok_inv hok
    rcases habs with h | h | h | h
    · rw [h] at h1
      exact absurd h1 (by simp [jsBigIntOfOptString])
    · rw [h] at h2
      exact absurd h2 (by simp [jsBigIntOfOptString])
    · rw [h] at h7
      exact absurd h7 (by simp [jsBigIntOfOptString])
    · rw [h] at h5
      exact absurd h5 (by simp [bigNumberFromOptString])

/-- The same subscription payload with the nonce field absent. -/
def wsTxNoNonce : WebsocketTxPayload := { wsTx0 with nonce := none }

/-- Witness for the amended C8: the payload with the optional fields and
the nonce absent converts — the absent fee fields becoming null, r, s
undefined, type 0 and the nonce NaN — while dropping any one of gas,
gasPrice, value or v from the well-formed payload makes the conversion
fail. -/
theorem c8_optional_fields_witness :
    (∃ out, txFromWebsocketTx wsTxNoNonce ethAsset ETHEREUM = .ok out
      ∧ out.maxFeePerGas = none ∧ out.maxPriorityFeePerGas = none
      ∧ out.r = none ∧ out.s = none ∧ out.type = 0 ∧ out.nonce = none)
    ∧ (∀ out, txFromWebsocketTx { wsTx0 with gas := none } ethAsset ETHEREUM ≠ .ok out)
    ∧ (∀ out, txFromWebsocketTx wsTxNoGasPrice ethAsset ETHEREUM ≠ .ok out)
    ∧ (∀ out, txFromWebsocketTx { wsTx0 with value := none } ethAsset ETHEREUM ≠ .ok out)
    ∧ (∀ out, txFromWebsocketTx { wsTx0 with v := none } ethAsset ETHEREUM ≠ .ok out) := by
  have hok : txFromWebsocketTx wsTxNoNonce ethAsset ETHEREUM
      = .ok (mkWsTx wsTxNoNonce ethAsset ETHEREUM 21000 1 none none 27 0 0) := by decide
  refine ⟨?_, ?_, ?_, ?_, ?_⟩
  · have h := (c8_optional_fields wsTxNoNonce ethAsset ETHEREUM).1 _ hok
    exact ⟨_, hok, h.1 (Or.inl rfl), h.2.1 (Or.inl rfl), h.2.2.1 rfl,
      h.2.2.2.1 rfl, h.2.2.2.2.1 rfl, h.2.2.2.2.2 rfl⟩
  · exact (c8_optional_fields { wsTx0 with gas := none } ethAsset ETHEREUM).2 (Or.inl rfl)
  · exact (c8_optional_fields wsTxNoGasPrice ethAsset ETHEREUM).2 (Or.inr (Or.inl rfl))
  · exact (c8_optional_fields { wsTx0 with value := none } ethAsset ETHEREUM).2
      (Or.inr (Or.inr (Or.inl rfl)))
  · exact (c8_optional_fields { wsTx0 with v := none } ethAsset ETHEREUM).2
      (Or.inr (Or.inr (Or.inr rfl)))

/-- The subscription payload with the v field absent. -/
def wsTxNoV : WebsocketTxPayload := { wsTx0 with v := none, r := some "0x1", s := some "0x2" }

/-- C10: a subscription payload whose v field is absent never converts —
BigNumber.from of the absent value throws — while absent r and s fields
are tolerated and map to undefined on a successful conversion. -/
theorem c10_v_required (wtx : WebsocketTxPayload) (asset : FungibleAsset)
    (network : EVMNetwork) :
    (wtx.v = none → ∀ out, txFromWebsocketTx wtx asset network ≠ .ok out)
    ∧ (∀ out, txFromWebsocketTx wtx asset network = .ok out →
        (wtx.r = none → out.r = none) ∧ (wtx.s = none → out.s = none)) := by
  constructor
  · intro hv out hok
    obtain ⟨_, _, _, _, vBN, _, _, _, _, _, _, _, h5, _⟩ := txFromWebsocketTx_ok_inv hok
    rw [hv] at h5
    exact absurd h5 (by simp [bigNumberFromOptString])
  · intro out hok
    obtain ⟨gasLimit, gasPrice, maxFee, maxPrio, vBN, v, value, t,
      h1, h2, h3, h4, h5, h6, h7, h8, hout⟩ := txFromWebsocketTx_ok_inv hok
    subst hout
    simp only [mkWsTx]
    constructor
    · intro hr
      rw [hr]
      rfl
    · intro hs
      rw [hs]
      rfl

/-- Witness for C10: the concrete payload without v is rejected, and the
one with v present but r and s absent converts with both undefined. -/
theorem c10_v_required_witness :
    (∀ out, txFromWebsocketTx wsTxNoV ethAsset ETHEREUM ≠ .ok out)
    ∧ (∃ out, txFromWebsocketTx wsTx0 ethAsset ETHEREUM = .ok out
        ∧ out.r = none ∧ out.s = none) := by
  have hok : txFromWebsocketTx wsTx0 ethAsset ETHEREUM
      = .ok (mkWsTx wsTx0 ethAsset ETHEREUM 21000 1 none none 27 0 0) := by decide
  constructor
  · exact (c10_v_required wsTxNoV ethAsset ETHEREUM).1 rfl
  · have h := (c10_v_required wsTx0 ethAsset ETHEREUM).2 _ hok
    exact ⟨_, hok, h.1 rfl, h.2 rfl⟩

/-- C9: toProviderNetwork maps the canonical name Ethereum to the ethers
legacy alias homestead, lower-cases every other canonical name, and on a
network whose chainID is the decimal string of an integer in the safe
range returns exactly that integer as chainId. -/
theorem c9_network_adapter (network : EVMNetwork) (n : Nat)
    (hc : network.chainID = jsNumberToString n) (hn : n < 2 ^ 53) :
    (network.name = "Ethereum" → (networkToEthersNetwork network).name = "homestead")
    ∧ (network.name ≠ "Ethereum" →
        (networkToEthersNetwork network).name = network.name.toLower)
    ∧ (networkToEthersNetwork network).chainId = some n := by
  refine ⟨?_, ?_, ?_⟩
  · intro h
    rw [networkToEthersNetwork]
    simp [h]
  · intro h
    rw [networkToEthersNetwork]
    simp [h]
  · rw [networkToEthersNetwork]
    simp only [hc, jsNumberOfString_numberString, roundToDouble_of_lt hn]

/-- Witness for C9 at the canonical mainnet network. -/
theorem c9_network_adapter_witness :
    (ETHEREUM.name = "Ethereum" → (networkToEthersNetwork ETHEREUM).name = "homestead")
    ∧ (ETHEREUM.name ≠ "Ethereum" →
        (networkToEthersNetwork ETHEREUM).name = ETHEREUM.name.toLower)
    ∧ (networkToEthersNetwork ETHEREUM).chainId = some 1 :=
  c9_network_adapter ETHEREUM 1 (by decide) (by decide)
